import Mathlib

/-!
Shallow embedding of the chain-pulse XDM indexer core (autonomys/chain-pulse),
covering the block-range resolver and concurrent block processor
(src/indexer/src/xdm.rs), the correlation and persistence engine
(src/indexer/src/storage.rs), and the numeric identifier types
(src/indexer/src/types.rs).

Modelling conventions:
- Machine integers are Nat (u32, u64, u128, numeric columns) or Int (i64
  columns, timestamps); the u64 limb bound of U256Compat is carried as an
  explicit well-formedness predicate.
- DateTime values are modelled as Int timestamps; account identities are
  modelled at the granularity the storage layer uses them (their rendered
  string), since address encoding is out of scope of the core.
- Fallible Rust code returning Result is embedded as Except Error.
- The Postgres table indexer.xdm_transfers is modelled as an association
  list from the composite key to the row; the numeric(78,0) channel and
  nonce columns compare by numeric value, so the key carries their Nat
  value (the decimal-string rendering itself is modelled separately for
  the numeric-fidelity property).
- futures buffered(n) polls up to n futures concurrently but yields the
  results in submission order, and try_next stops at the first error in
  that order; the drain loop of index_xdm is therefore embedded as an
  in-order fold over the block range.
-/

namespace ChainPulse

/-- Error type mirroring the overarching indexer error enum in
src/indexer/src/error.rs (payloads reduced to their message strings). -/
inductive Error
  | Config (msg : String)
  | Subspace (msg : String)
  | Io (msg : String)
  | Join (msg : String)
  | BroadRecvErr (msg : String)
  | DB (msg : String)
  | Migrate (msg : String)
deriving DecidableEq, Repr

/-- Least-significant-first decimal digits of a natural number, the digit
sequence underlying the Display rendering used by U256Compat and the
numeric columns. -/
def natDecDigitsAux (n : Nat) : List Nat :=
  if n < 10 then [n]
  else n % 10 :: natDecDigitsAux (n / 10)
decreasing_by exact Nat.div_lt_self (by omega) (by norm_num)

/-- Decimal rendering of a natural number as a most-significant-first digit
list (the decimal string, with characters identified with their digit
values). -/
def natToDecString (n : Nat) : List Nat := (natDecDigitsAux n).reverse

/-- Parse a decimal digit string back to a natural number; none when some
position is not a decimal digit. -/
def decStringToNat (ds : List Nat) : Option Nat :=
  if ds.all (fun d => d < 10) then some (ds.foldl (fun a d => a * 10 + d) 0)
  else none

/-- Value of one u64 limb, 2 to the power 64. -/
def limb : Nat := 18446744073709551616

/-- Four little-endian u64 limbs, mirroring struct U256Compat([u64; 4]) in
src/indexer/src/types.rs (and primitive_types U256 underneath). -/
structure U256Compat where
  w0 : Nat
  w1 : Nat
  w2 : Nat
  w3 : Nat
deriving DecidableEq, Repr

/-- Well-formedness of a U256Compat: every limb fits in a u64. -/
def U256Compat.wf (u : U256Compat) : Prop :=
  u.w0 < limb ∧ u.w1 < limb ∧ u.w2 < limb ∧ u.w3 < limb

instance (u : U256Compat) : Decidable u.wf := by
  unfold U256Compat.wf; infer_instance

/-- Numeric value of the four limbs. -/
def U256Compat.toNat (u : U256Compat) : Nat :=
  u.w0 + limb * (u.w1 + limb * (u.w2 + limb * u.w3))

/-- Split a natural number into four u64 limbs. -/
def U256Compat.ofNat (n : Nat) : U256Compat :=
  ⟨n % limb, n / limb % limb, n / limb / limb % limb, n / limb / limb / limb % limb⟩

/-- Decimal display of a U256Compat, mirroring its Display impl which
delegates to the primitive_types U256 decimal formatting. -/
def U256Compat.toDecString (u : U256Compat) : List Nat := natToDecString u.toNat

/-- Parse a decimal string back into a U256Compat, mirroring
U256::from_dec_str: invalid characters or a value not below 2 to the
power 256 yield none. -/
def U256Compat.ofDecString (ds : List Nat) : Option U256Compat :=
  (decStringToNat ds).bind fun n =>
    if n < limb ^ 4 then some (U256Compat.ofNat n) else none

/-- Read-boundary amount scaling from the From impl for api::XdmTransfer in
src/indexer/src/storage.rs: Decimal::from(amount).div(decimal_scale), with
decimal_scale = 10 to the power token_decimals (src/indexer/src/main.rs).
rust_decimal division agrees with exact rational division whenever the
exact quotient is representable (96-bit mantissa, scale at most 28), which
is the regime the fidelity claim is about. -/
def displayAmount (amount : Nat) (decimalScale : ℚ) : ℚ :=
  (amount : ℚ) / decimalScale

/-- Domain and chain identity, mirroring ChainId and DomainId in
src/indexer/src/types.rs. -/
inductive ChainId
  | Consensus
  | Domain (id : Nat)
deriving DecidableEq, Repr

/-- Display rendering of a ChainId, mirroring its Display impl; this is
the string stored in the src_chain and dst_chain columns. -/
def ChainId.display : ChainId → String
  | ChainId.Consensus => "Consensus"
  | ChainId.Domain i => "Domain(" ++ toString i ++ ")"

/-- Balance mirrors the u128 balance alias of the shared crate. -/
abbrev Balance := Nat

/-- Composite message identifier: channel id and nonce. -/
abbrev XdmMessageId := U256Compat × U256Compat

/-- Raw OutgoingTransferInitiated event payload (src/indexer/src/types.rs). -/
structure OutgoingTransferInitiated where
  chain_id : ChainId
  message_id : XdmMessageId
  amount : Balance
deriving DecidableEq, Repr

/-- OutgoingTransferFailed event payload (src/indexer/src/types.rs). -/
structure OutgoingTransferFailed where
  chain_id : ChainId
  message_id : XdmMessageId
deriving DecidableEq, Repr

/-- OutgoingTransferSuccessful event payload (src/indexer/src/types.rs). -/
structure OutgoingTransferSuccessful where
  chain_id : ChainId
  message_id : XdmMessageId
deriving DecidableEq, Repr

/-- IncomingTransferSuccessful event payload (src/indexer/src/types.rs). -/
structure IncomingTransferSuccessful where
  chain_id : ChainId
  message_id : XdmMessageId
  amount : Balance
deriving DecidableEq, Repr

/-- Location of a transfer endpoint; the MultiAccountId is modelled at the
granularity storage uses it, namely its rendered string. -/
structure Location where
  chain_id : ChainId
  account_id : String
deriving DecidableEq, Repr

/-- Transfer payload read from the Transporter OutgoingTransfers storage
map (src/indexer/src/types.rs). -/
structure Transfer where
  amount : Balance
  sender : Location
  receiver : Location
deriving DecidableEq, Repr

/-- Enriched initiated event, pairing the message id with the Transfer
payload obtained by the storage lookup. -/
structure OutgoingTransferInitiatedWithTransfer where
  message_id : XdmMessageId
  transfer : Transfer
deriving DecidableEq, Repr

/-- Overarching event type (src/indexer/src/types.rs). -/
inductive Event
  | OutgoingTransferInitiated (e : OutgoingTransferInitiatedWithTransfer)
  | OutgoingTransferFailed (e : OutgoingTransferFailed)
  | OutgoingTransferSuccessful (e : OutgoingTransferSuccessful)
  | IncomingTransferSuccessful (e : IncomingTransferSuccessful)
deriving DecidableEq, Repr

/-- Block hash and number pair (shared subspace HashAndNumber). -/
structure HashAndNumber where
  hash : String
  number : Nat
deriving DecidableEq, Repr

/-- Composite key of the indexer.xdm_transfers table: src_chain, dst_chain
as their rendered strings, channel_id and nonce by the numeric value their
decimal strings denote in the numeric(78,0) columns. -/
structure XdmKey where
  src_chain : String
  dst_chain : String
  channel_id : Nat
  nonce : Nat
deriving DecidableEq, Repr

/-- Row of the indexer.xdm_transfers table beyond its key columns, with
one optional field per nullable column (src/indexer/src/storage.rs,
struct XdmTransfer). -/
structure XdmRecord where
  sender : Option String
  receiver : Option String
  amount : Option Nat
  transfer_initiated_block_number : Option Int
  transfer_initiated_block_hash : Option String
  transfer_initiated_on_src_at : Option Int
  transfer_executed_on_dst_block_number : Option Int
  transfer_executed_on_dst_block_hash : Option String
  transfer_executed_on_dst_at : Option Int
  transfer_acknowledged_on_src_block_number : Option Int
  transfer_acknowledged_on_src_block_hash : Option String
  transfer_acknowledged_on_src_at : Option Int
  transfer_successful : Option Bool
deriving DecidableEq, Repr

/-- Transfers table, as an association list keyed by the composite key. -/
abbrev Db := List (XdmKey × XdmRecord)

/-- Postgres insert-on-conflict-do-update: insert the fresh row if the key
is unseen, otherwise apply the SET list (upd, whose excluded values are
the fields of the fresh row) to the existing row. -/
def upsert (db : Db) (k : XdmKey) (ins : XdmRecord) (upd : XdmRecord → XdmRecord) : Db :=
  match db with
  | [] => [(k, ins)]
  | (k0, r) :: rest =>
    if k0 = k then (k0, upd r) :: rest else (k0, r) :: upsert rest k ins upd

/-- Empty row: every non-key column NULL. -/
def emptyRecord : XdmRecord :=
  ⟨none, none, none, none, none, none, none, none, none, none, none, none, none⟩

/-- Db::store_incoming_transfer_execution (src/indexer/src/storage.rs
lines 233-278): upsert keyed by (event chain, indexed chain, channel,
nonce) writing amount, the executed-on-dst block fields, and
transfer_successful = true. -/
def store_incoming_transfer_execution (db : Db) (block : HashAndNumber)
    (dst_chain : ChainId) (block_time : Int) (transfer : IncomingTransferSuccessful) : Db :=
  let src_chain := transfer.chain_id
  let channel_id := transfer.message_id.1
  let nonce := transfer.message_id.2
  let k : XdmKey := ⟨src_chain.display, dst_chain.display, channel_id.toNat, nonce.toNat⟩
  let ins : XdmRecord :=
    { emptyRecord with
        amount := some transfer.amount
        transfer_executed_on_dst_block_number := some (Int.ofNat block.number)
        transfer_executed_on_dst_block_hash := some block.hash
        transfer_executed_on_dst_at := some block_time
        transfer_successful := some true }
  upsert db k ins fun r =>
    { r with
        amount := some transfer.amount
        transfer_executed_on_dst_block_number := some (Int.ofNat block.number)
        transfer_executed_on_dst_block_hash := some block.hash
        transfer_successful := some true
        transfer_executed_on_dst_at := some block_time }

/-- Db::store_outgoing_transfer_acknowledgement (src/indexer/src/storage.rs
lines 280-319): upsert keyed by (indexed chain, event chain, channel,
nonce) writing the acknowledged-on-src block fields and
transfer_successful = transfer_status. -/
def store_outgoing_transfer_acknowledgement (db : Db) (block : HashAndNumber)
    (src_chain : ChainId) (dst_chain : ChainId) (block_time : Int)
    (message_id : XdmMessageId) (transfer_status : Bool) : Db :=
  let channel_id := message_id.1
  let nonce := message_id.2
  let k : XdmKey := ⟨src_chain.display, dst_chain.display, channel_id.toNat, nonce.toNat⟩
  let ins : XdmRecord :=
    { emptyRecord with
        transfer_acknowledged_on_src_block_number := some (Int.ofNat block.number)
        transfer_acknowledged_on_src_block_hash := some block.hash
        transfer_successful := some transfer_status
        transfer_acknowledged_on_src_at := some block_time }
  upsert db k ins fun r =>
    { r with
        transfer_acknowledged_on_src_block_hash := some block.hash
        transfer_acknowledged_on_src_block_number := some (Int.ofNat block.number)
        transfer_successful := some transfer_status
        transfer_acknowledged_on_src_at := some block_time }

/-- Db::store_outgoing_transfer_initiated (src/indexer/src/storage.rs
lines 321-382): upsert keyed by (sender chain, receiver chain, channel,
nonce) writing sender, receiver, amount and the initiated block fields. -/
def store_outgoing_transfer_initiated (db : Db) (initiated_block : HashAndNumber)
    (block_time : Int) (transfer : OutgoingTransferInitiatedWithTransfer) : Db :=
  let src_chain := transfer.transfer.sender.chain_id
  let sender := transfer.transfer.sender.account_id
  let dst_chain := transfer.transfer.receiver.chain_id
  let receiver := transfer.transfer.receiver.account_id
  let amount := transfer.transfer.amount
  let channel_id := transfer.message_id.1
  let nonce := transfer.message_id.2
  let k : XdmKey := ⟨src_chain.display, dst_chain.display, channel_id.toNat, nonce.toNat⟩
  let ins : XdmRecord :=
    { emptyRecord with
        sender := some sender
        receiver := some receiver
        amount := some amount
        transfer_initiated_block_number := some (Int.ofNat initiated_block.number)
        transfer_initiated_block_hash := some initiated_block.hash
        transfer_initiated_on_src_at := some block_time }
  upsert db k ins fun r =>
    { r with
        sender := some sender
        receiver := some receiver
        amount := some amount
        transfer_initiated_block_number := some (Int.ofNat initiated_block.number)
        transfer_initiated_block_hash := some initiated_block.hash
        transfer_initiated_on_src_at := some block_time }

/-- Db::store_events (src/indexer/src/storage.rs lines 189-231): apply
each extracted event in order as the upsert its variant selects; the
src_chain parameter is the chain whose block is being indexed. -/
def store_events (src_chain : ChainId) (block : HashAndNumber) (block_time : Int)
    (events : List Event) (db : Db) : Db :=
  events.foldl
    (fun acc event =>
      match event with
      | Event.OutgoingTransferInitiated t =>
        store_outgoing_transfer_initiated acc block block_time t
      | Event.OutgoingTransferFailed t =>
        store_outgoing_transfer_acknowledgement acc block src_chain t.chain_id block_time
          t.message_id false
      | Event.OutgoingTransferSuccessful t =>
        store_outgoing_transfer_acknowledgement acc block src_chain t.chain_id block_time
          t.message_id true
      | Event.IncomingTransferSuccessful t =>
        store_incoming_transfer_execution acc block src_chain block_time t)
    db

/-- Checkpoint persistence interval, mirroring CHECKPOINT_PROCESSED_BLOCK
in src/indexer/src/xdm.rs. -/
def CHECKPOINT_PROCESSED_BLOCK : Nat := 100

/-- Range resolution of index_xdm (src/indexer/src/xdm.rs lines 36-63):
one announced block means the chain extended by one, so the range starts
right after the checkpoint; several announced blocks are a catch-up batch
ranging from the smaller of their minimum and checkpoint plus one, up to
their maximum. headD 0 stands for the first and expect calls of the
source, which are only reached on a non-empty batch. -/
def resolveFromTo (last_processed_block_number : Nat) (blocks : List Nat) : Nat × Nat :=
  if blocks.length = 1 then
    (last_processed_block_number + 1, blocks.headD 0)
  else
    let m := blocks.foldl min (blocks.headD 0)
    let M := blocks.foldl max (blocks.headD 0)
    (min m (last_processed_block_number + 1), M)

/-- Drain loop of index_xdm (src/indexer/src/xdm.rs lines 70-87): the
buffered stream yields per-block results in block order and try_next stops
at the first error. Returns the blocks whose results the loop consumed,
the checkpoint writes it performed, and the first error if any; process
abstracts index_events_for_block for one block. -/
def drainLoop (process : Nat → Except Error Unit) : List Nat → List Nat × List Nat × Option Error
  | [] => ([], [], none)
  | b :: rest =>
    match process b with
    | Except.error e => ([b], [], some e)
    | Except.ok _ =>
      let result := drainLoop process rest
      (b :: result.1,
       (if b % CHECKPOINT_PROCESSED_BLOCK = 0 then b :: result.2.1 else result.2.1),
       result.2.2)

/-- Processing of one resolved range by index_xdm (src/indexer/src/xdm.rs
lines 70-91): drain every block of from..=to in order, persisting the
checkpoint at every completed block number that is a multiple of the
interval, and unconditionally at to after a fully successful range; the
first failure aborts the range and propagates. -/
def index_range (process : Nat → Except Error Unit) (f t : Nat) :
    List Nat × List Nat × Option Error :=
  match drainLoop process (List.range' f (t + 1 - f)) with
  | (processed, writes, some e) => (processed, writes, some e)
  | (processed, writes, none) => (processed, writes ++ [t], none)

/-- One iteration of the index_xdm loop (src/indexer/src/xdm.rs lines
29-91): the checkpoint read result is collapsed with unwrap_or(0), the
range is resolved, and a range whose from exceeds its to is skipped
without processing, checkpoint writes, or error. -/
def index_xdm_iteration (last_read : Except Error Nat) (blocks : List Nat)
    (process : Nat → Except Error Unit) : List Nat × List Nat × Option Error :=
  let last_processed_block_number := last_read.toOption.getD 0
  let ft := resolveFromTo last_processed_block_number blocks
  if ft.1 > ft.2 then ([], [], none) else index_range process ft.1 ft.2

/-- Raw per-block event record, mirroring subxt EventDetails under the
reflection-like probing the extractor performs: a record either matches
one of the four known Transporter event types (carrying some payload when
it decodes, none when it matches the type by pallet and variant name but
fails to decode) or is unrelated. -/
inductive RawEvent
  | outgoingTransferInitiated (decoded : Option OutgoingTransferInitiated)
  | outgoingTransferFailed (decoded : Option OutgoingTransferFailed)
  | outgoingTransferSuccessful (decoded : Option OutgoingTransferSuccessful)
  | incomingTransferSuccessful (decoded : Option IncomingTransferSuccessful)
  | unrelated
deriving DecidableEq, Repr

/-- Contract of subxt as_event for OutgoingTransferFailed: ok-none when
the record is another type, ok-some on a successful decode, error when the
record matches the type but its payload fails to decode. -/
def asEventOutgoingTransferFailed : RawEvent → Except Error (Option OutgoingTransferFailed)
  | RawEvent.outgoingTransferFailed (some d) => Except.ok (some d)
  | RawEvent.outgoingTransferFailed none => Except.error (Error.Subspace "decode failure")
  | _ => Except.ok none

/-- Contract of subxt as_event for OutgoingTransferSuccessful. -/
def asEventOutgoingTransferSuccessful :
    RawEvent → Except Error (Option OutgoingTransferSuccessful)
  | RawEvent.outgoingTransferSuccessful (some d) => Except.ok (some d)
  | RawEvent.outgoingTransferSuccessful none => Except.error (Error.Subspace "decode failure")
  | _ => Except.ok none

/-- Contract of subxt as_event for IncomingTransferSuccessful. -/
def asEventIncomingTransferSuccessful :
    RawEvent → Except Error (Option IncomingTransferSuccessful)
  | RawEvent.incomingTransferSuccessful (some d) => Except.ok (some d)
  | RawEvent.incomingTransferSuccessful none => Except.error (Error.Subspace "decode failure")
  | _ => Except.ok none

/-- Contract of subxt as_event for OutgoingTransferInitiated. -/
def asEventOutgoingTransferInitiated :
    RawEvent → Except Error (Option OutgoingTransferInitiated)
  | RawEvent.outgoingTransferInitiated (some d) => Except.ok (some d)
  | RawEvent.outgoingTransferInitiated none => Except.error (Error.Subspace "decode failure")
  | _ => Except.ok none

/-- Fetched block with its decoded event log and storage access, mirroring
the BlockExt collaborator used by the extractor: events is the consensus
per-block event log (its members already item-filtered by the filter_map
over event.ok() at src/indexer/src/xdm.rs line 123), events_from_segments
the segment-reconstructed domain log, and outgoing_transfers the
Transporter OutgoingTransfers storage map read. -/
structure BlockExt where
  number : Nat
  hash : String
  timestamp : Int
  events : Except Error (List RawEvent)
  events_from_segments : Except Error (List RawEvent)
  outgoing_transfers : ChainId → XdmMessageId → Except Error Transfer

/-- Collapse of the ok().flatten() idiom applied to an as_event probe
result: only a successful decode survives, both a probe error and a
non-matching record collapse to none. -/
def okFlatten {α : Type} : Except Error (Option α) → Option α
  | Except.ok (some d) => some d
  | _ => none

/-- Generic helper as_events of src/indexer/src/xdm.rs lines 165-172,
instantiated at OutgoingTransferFailed: every record is probed with
as_event and the result collapsed with ok().flatten(), so both unrelated
records and records that matched the type but failed to decode are
dropped; the function never returns an error. -/
def as_events_failed (block_events : List RawEvent) : Except Error (List Event) :=
  Except.ok (block_events.filterMap fun e =>
    (okFlatten (asEventOutgoingTransferFailed e)).map Event.OutgoingTransferFailed)

/-- The as_events helper instantiated at OutgoingTransferSuccessful. -/
def as_events_successful (block_events : List RawEvent) : Except Error (List Event) :=
  Except.ok (block_events.filterMap fun e =>
    (okFlatten (asEventOutgoingTransferSuccessful e)).map Event.OutgoingTransferSuccessful)

/-- The as_events helper instantiated at IncomingTransferSuccessful. -/
def as_events_incoming (block_events : List RawEvent) : Except Error (List Event) :=
  Except.ok (block_events.filterMap fun e =>
    (okFlatten (asEventIncomingTransferSuccessful e)).map Event.IncomingTransferSuccessful)

/-- extract_xdm_events_for_block (src/indexer/src/xdm.rs lines 114-163):
pick the event source by chain (consensus log, or segment reconstruction
for domain zero, any other chain a config error), collect the three
directly-decoded event kinds, then enrich every decoded initiated event
with a storage read; the buffered(10).try_collect enrichment keeps
submission order and stops at the first storage error, embedded as mapM. -/
def extract_xdm_events_for_block (chain : ChainId) (block_ext : BlockExt) :
    Except Error (List Event) := do
  let block_events ←
    match chain with
    | ChainId.Consensus => block_ext.events
    | ChainId.Domain 0 => block_ext.events_from_segments
    | _ => Except.error (Error.Config "invalid chain id")
  let e1 ← as_events_failed block_events
  let e2 ← as_events_successful block_events
  let e3 ← as_events_incoming block_events
  let transfer_initiated_events := block_events.filterMap fun e =>
    okFlatten (asEventOutgoingTransferInitiated e)
  let outgoing_init_events ← transfer_initiated_events.mapM fun event =>
    (block_ext.outgoing_transfers event.chain_id event.message_id).map fun transfer =>
      Event.OutgoingTransferInitiated ⟨event.message_id, transfer⟩
  pure (e1 ++ e2 ++ e3 ++ outgoing_init_events)

/-- Raw record that contributes no event: it is unrelated, or it matches
one of the four known event types by name but its payload fails to
decode. -/
def RawEvent.undecodable : RawEvent → Bool
  | RawEvent.outgoingTransferInitiated none => true
  | RawEvent.outgoingTransferFailed none => true
  | RawEvent.outgoingTransferSuccessful none => true
  | RawEvent.incomingTransferSuccessful none => true
  | RawEvent.unrelated => true
  | _ => false

/-- Sample message id shared by the three lifecycle events of one
transfer, channel 0 and nonce 1. -/
def cexMessageId : XdmMessageId := (⟨0, 0, 0, 0⟩, ⟨1, 0, 0, 0⟩)

/-- Sample initiated event for the consensus-to-domain transfer, with
amount 5. -/
def cexInitEv : Event :=
  Event.OutgoingTransferInitiated
    ⟨cexMessageId, ⟨5, ⟨ChainId.Consensus, "alice"⟩, ⟨ChainId.Domain 0, "bob"⟩⟩⟩

/-- Sample failed acknowledgement for the same transfer, observed on the
consensus chain. -/
def cexAckEv : Event := Event.OutgoingTransferFailed ⟨ChainId.Domain 0, cexMessageId⟩

/-- Sample executed event for the same transfer, observed on domain zero,
with amount 7. -/
def cexExecEv : Event := Event.IncomingTransferSuccessful ⟨ChainId.Consensus, cexMessageId, 7⟩

/-- Sample block references for the three events. -/
def cexBlockI : HashAndNumber := ⟨"0xaa", 500⟩

def cexBlockA : HashAndNumber := ⟨"0xbb", 600⟩

def cexBlockE : HashAndNumber := ⟨"0xcc", 900⟩

/-- index_events_for_block (src/indexer/src/xdm.rs lines 94-112): fetch
the block, extract its events, and only when the extracted list is
non-empty store them; the db value threads the transfers table state. -/
def index_events_for_block (chain : ChainId) (block_number : Nat) (db : Db)
    (block_provider : Nat → Except Error BlockExt) : Except Error Db := do
  let block_ext ← block_provider block_number
  let events ← extract_xdm_events_for_block chain block_ext
  if events.isEmpty then
    pure db
  else
    pure (store_events chain ⟨block_ext.hash, block_ext.number⟩ block_ext.timestamp events db)

theorem natDecDigitsAux_lt_ten (n : Nat) : ∀ d ∈ natDecDigitsAux n, d < 10 := by
  induction n using Nat.strong_induction_on with
  | _ n ih =>
    rw [natDecDigitsAux]
    split
    next h =>
      intro d hd
      rw [List.mem_singleton] at hd
      omega
    next h =>
      intro d hd
      rcases List.mem_cons.mp hd with h1 | h1
      · omega
      · exact ih (n / 10) (Nat.div_lt_self (by omega) (by norm_num)) d h1

theorem foldr_natDecDigitsAux (n : Nat) :
    (natDecDigitsAux n).foldr (fun d acc => acc * 10 + d) 0 = n := by
  induction n using Nat.strong_induction_on with
  | _ n ih =>
    rw [natDecDigitsAux]
    split
    next h => simp
    next h =>
      rw [List.foldr_cons, ih (n / 10) (Nat.div_lt_self (by omega) (by norm_num))]
      omega

theorem decStringToNat_natToDecString (n : Nat) :
    decStringToNat (natToDecString n) = some n := by
  have hall : ((natDecDigitsAux n).reverse).all (fun d => decide (d < 10)) = true := by
    rw [List.all_eq_true]
    intro d hd
    rw [List.mem_reverse] at hd
    exact decide_eq_true (natDecDigitsAux_lt_ten n d hd)
  unfold decStringToNat natToDecString
  rw [if_pos hall, List.foldl_reverse]
  show some ((natDecDigitsAux n).foldr (fun d acc => acc * 10 + d) 0) = some n
  rw [foldr_natDecDigitsAux]

theorem U256Compat.toNat_lt (u : U256Compat) (h : u.wf) : u.toNat < limb ^ 4 := by
  obtain ⟨w0, w1, w2, w3⟩ := u
  obtain ⟨h0, h1, h2, h3⟩ := h
  have h4 : limb ^ 4 = limb * (limb * (limb * limb)) := by ring
  unfold U256Compat.toNat
  rw [h4]
  unfold limb at *
  simp only at *
  omega

theorem U256Compat.ofNat_toNat (u : U256Compat) (h : u.wf) :
    U256Compat.ofNat u.toNat = u := by
  obtain ⟨w0, w1, w2, w3⟩ := u
  obtain ⟨h0, h1, h2, h3⟩ := h
  unfold U256Compat.ofNat U256Compat.toNat
  unfold limb at *
  simp only at *
  simp only [U256Compat.mk.injEq]
  refine ⟨?_, ?_, ?_, ?_⟩ <;> omega

/-- C8: a 256-bit message identifier given as four 64-bit words round-trips
through its decimal-string rendering and back without loss, and the amount
66400000000000000000000 scaled by 18 decimals at the read boundary
displays as exactly 66400. -/
theorem numeric_fidelity :
    (∀ u : U256Compat, u.wf →
      U256Compat.ofDecString (U256Compat.toDecString u) = some u) ∧
    displayAmount 66400000000000000000000 (10 ^ 18) = 66400 := by
  constructor
  · intro u hu
    unfold U256Compat.ofDecString U256Compat.toDecString
    rw [decStringToNat_natToDecString]
    have hbound := U256Compat.toNat_lt u hu
    simp only [Option.bind_eq_bind, Option.some_bind, if_pos hbound]
    rw [U256Compat.ofNat_toNat u hu]
  · unfold displayAmount
    norm_num

theorem numeric_fidelity_witness :
    U256Compat.ofDecString (U256Compat.toDecString ⟨1, 2, 3, 4⟩) = some ⟨1, 2, 3, 4⟩ :=
  numeric_fidelity.1 ⟨1, 2, 3, 4⟩ (by decide)

theorem foldl_min_mem (a : Nat) (l : List Nat) : l.foldl min a ∈ a :: l := by
  induction l generalizing a with
  | nil => simp
  | cons x xs ih =>
    rw [List.foldl_cons]
    have h := ih (min a x)
    rcases List.mem_cons.mp h with h1 | h1
    · rw [h1]
      rcases Nat.le_total a x with hax | hax
      · simp [Nat.min_eq_left hax]
      · simp [Nat.min_eq_right hax]
    · exact List.mem_cons_of_mem _ (List.mem_cons_of_mem _ h1)

theorem foldl_min_le (a : Nat) (l : List Nat) : ∀ x ∈ a :: l, l.foldl min a ≤ x := by
  induction l generalizing a with
  | nil =>
    intro x hx
    rw [List.mem_singleton] at hx
    simp [hx]
  | cons y ys ih =>
    intro x hx
    rw [List.foldl_cons]
    have hbase : ys.foldl min (min a y) ≤ min a y :=
      ih (min a y) (min a y) (List.mem_cons_self _ _)
    rcases List.mem_cons.mp hx with h1 | h1
    · subst h1
      exact le_trans hbase (Nat.min_le_left _ _)
    · rcases List.mem_cons.mp h1 with h2 | h2
      · subst h2
        exact le_trans hbase (Nat.min_le_right _ _)
      · exact ih (min a y) x (List.mem_cons_of_mem _ h2)

theorem foldl_max_mem (a : Nat) (l : List Nat) : l.foldl max a ∈ a :: l := by
  induction l generalizing a with
  | nil => simp
  | cons x xs ih =>
    rw [List.foldl_cons]
    have h := ih (max a x)
    rcases List.mem_cons.mp h with h1 | h1
    · rw [h1]
      rcases Nat.le_total a x with hax | hax
      · simp [Nat.max_eq_right hax]
      · simp [Nat.max_eq_left hax]
    · exact List.mem_cons_of_mem _ (List.mem_cons_of_mem _ h1)

theorem le_foldl_max (a : Nat) (l : List Nat) : ∀ x ∈ a :: l, x ≤ l.foldl max a := by
  induction l generalizing a with
  | nil =>
    intro x hx
    rw [List.mem_singleton] at hx
    simp [hx]
  | cons y ys ih =>
    intro x hx
    rw [List.foldl_cons]
    have hbase : max a y ≤ ys.foldl max (max a y) :=
      ih (max a y) (max a y) (List.mem_cons_self _ _)
    rcases List.mem_cons.mp hx with h1 | h1
    · subst h1
      exact le_trans (Nat.le_max_left _ _) hbase
    · rcases List.mem_cons.mp h1 with h2 | h2
      · subst h2
        exact le_trans (Nat.le_max_right _ _) hbase
      · exact ih (max a y) x (List.mem_cons_of_mem _ h2)

/-- C1: for checkpoint C and a non-empty batch B, the resolved inclusive
range is from C plus one up to the single announced block when B has one
element, and from the smaller of C plus one and the minimum of B up to the
maximum of B when B has more than one element; a resolved range whose from
exceeds its to makes the iteration a no-op: no processing, no checkpoint
write, no error. -/
theorem resolve_range_spec (C : Nat) (B : List Nat) :
    (∀ b, B = [b] → resolveFromTo C B = (C + 1, b)) ∧
    (∀ m M, 1 < B.length → m ∈ B → (∀ x ∈ B, m ≤ x) → M ∈ B → (∀ x ∈ B, x ≤ M) →
      resolveFromTo C B = (min (C + 1) m, M)) ∧
    (∀ process, (resolveFromTo C B).1 > (resolveFromTo C B).2 →
      index_xdm_iteration (Except.ok C) B process = ([], [], none)) := by
  refine ⟨?_, ?_, ?_⟩
  · intro b hb
    subst hb
    rfl
  · intro m M hlen hm hmle hM hMle
    match B, hlen with
    | b :: bs, hlen =>
      have hne : (b :: bs).length ≠ 1 := by
        simp only [List.length_cons] at *
        omega
      unfold resolveFromTo
      rw [if_neg hne]
      have hminmem : (b :: bs).foldl min ((b :: bs).headD 0) ∈ b :: bs := by
        have := foldl_min_mem b (b :: bs)
        simp only [List.headD_cons]
        rcases List.mem_cons.mp this with h1 | h1
        · rw [h1]; exact List.mem_cons_self _ _
        · exact h1
      have hminle : ∀ x ∈ b :: bs, (b :: bs).foldl min ((b :: bs).headD 0) ≤ x := by
        intro x hx
        simp only [List.headD_cons]
        exact foldl_min_le b (b :: bs) x (List.mem_cons_of_mem _ hx)
      have hmaxmem : (b :: bs).foldl max ((b :: bs).headD 0) ∈ b :: bs := by
        have := foldl_max_mem b (b :: bs)
        simp only [List.headD_cons]
        rcases List.mem_cons.mp this with h1 | h1
        · rw [h1]; exact List.mem_cons_self _ _
        · exact h1
      have hmaxle : ∀ x ∈ b :: bs, x ≤ (b :: bs).foldl max ((b :: bs).headD 0) := by
        intro x hx
        simp only [List.headD_cons]
        exact le_foldl_max b (b :: bs) x (List.mem_cons_of_mem _ hx)
      have hmeq : (b :: bs).foldl min ((b :: bs).headD 0) = m :=
        Nat.le_antisymm (hminle m hm) (hmle _ hminmem)
      have hMeq : (b :: bs).foldl max ((b :: bs).headD 0) = M :=
        Nat.le_antisymm (hMle _ hmaxmem) (hmaxle M hM)
      rw [hmeq, hMeq, Nat.min_comm]
  · intro process hgt
    unfold index_xdm_iteration
    simp only [Except.toOption, Option.getD_some]
    rw [if_pos hgt]

theorem resolve_range_spec_witness :
    resolveFromTo 100 [103, 104, 105] = (101, 105) := by
  have h := (resolve_range_spec 100 [103, 104, 105]).2.1 103 105 (by norm_num)
    (by norm_num) (by decide) (by norm_num) (by decide)
  norm_num at h
  exact h

/-- C10: index_xdm collapses every failed checkpoint read, not only the
missing-row case, to checkpoint 0 via unwrap_or, so an iteration after a
transient read failure behaves exactly like one starting from checkpoint
0 and a single-block announcement resolves its range from block 1; the
read error is never propagated. -/
theorem checkpoint_read_error_as_zero (e : Error) (blocks : List Nat)
    (process : Nat → Except Error Unit) :
    index_xdm_iteration (Except.error e) blocks process =
      index_xdm_iteration (Except.ok 0) blocks process ∧
    (∀ b, resolveFromTo ((Except.error e : Except Error Nat).toOption.getD 0) [b] = (1, b)) := by
  constructor
  · rfl
  · intro b
    rfl

theorem drainLoop_all_ok (process : Nat → Except Error Unit) (l : List Nat)
    (h : ∀ x ∈ l, process x = Except.ok ()) :
    drainLoop process l =
      (l, l.filter (fun b => b % CHECKPOINT_PROCESSED_BLOCK = 0), none) := by
  induction l with
  | nil => rfl
  | cons b rest ih =>
    have hb' := h b (List.mem_cons_self _ _)
    have ih' := ih fun x hx => h x (List.mem_cons_of_mem _ hx)
    by_cases hb : b % CHECKPOINT_PROCESSED_BLOCK = 0 <;>
      simp [drainLoop, hb', ih', List.filter_cons, hb]

theorem drainLoop_first_error (process : Nat → Except Error Unit) (b : Nat) (e : Error)
    (l1 l2 : List Nat) (hok : ∀ x ∈ l1, process x = Except.ok ())
    (hfail : process b = Except.error e) :
    drainLoop process (l1 ++ b :: l2) =
      (l1 ++ [b], l1.filter (fun x => x % CHECKPOINT_PROCESSED_BLOCK = 0), some e) := by
  induction l1 with
  | nil => simp [drainLoop, hfail]
  | cons a rest ih =>
    have ha := hok a (List.mem_cons_self _ _)
    have ih' := ih fun x hx => hok x (List.mem_cons_of_mem _ hx)
    by_cases hb : a % CHECKPOINT_PROCESSED_BLOCK = 0 <;>
      simp [drainLoop, ha, ih', List.filter_cons, hb]

theorem range'_split (f b t : Nat) (hfb : f ≤ b) (hbt : b ≤ t) :
    List.range' f (t + 1 - f) = List.range' f (b - f) ++ b :: List.range' (b + 1) (t - b) := by
  have h1 : b :: List.range' (b + 1) (t - b) = List.range' b (t - b + 1) := by
    rw [List.range'_succ]
  rw [h1]
  have happ := List.range'_append f (b - f) (t - b + 1) 1
  have h2 : f + 1 * (b - f) = b := by omega
  rw [h2] at happ
  rw [happ]
  congr 1
  omega

/-- C5: while draining a range the checkpoint is persisted at a completed
block number exactly when that number is a multiple of the interval 100,
and a successfully processed range ends with an unconditional checkpoint
write at its upper bound regardless of alignment. -/
theorem checkpoint_cadence (process : Nat → Except Error Unit) (f t : Nat)
    (hft : f ≤ t) (h : ∀ x, f ≤ x → x ≤ t → process x = Except.ok ()) :
    index_range process f t =
      (List.range' f (t + 1 - f),
       (List.range' f (t + 1 - f)).filter (fun b => b % CHECKPOINT_PROCESSED_BLOCK = 0) ++ [t],
       none) := by
  have hall : ∀ x ∈ List.range' f (t + 1 - f), process x = Except.ok () := by
    intro x hx
    rw [List.mem_range'_1] at hx
    exact h x hx.1 (by omega)
  unfold index_range
  rw [drainLoop_all_ok process _ hall]

theorem checkpoint_cadence_witness :
    index_range (fun _ => Except.ok ()) 98 102 =
      ([98, 99, 100, 101, 102], [100, 102], none) := by
  have h := checkpoint_cadence (fun _ => Except.ok ()) 98 102 (by norm_num)
    (fun x h1 h2 => rfl)
  rw [h]
  rfl

/-- C4: if processing some block of a resolved range fails while every
earlier block succeeded, the error is returned by the range drain, every
checkpoint write performed is strictly below the failed block, every
written checkpoint value is one at or below which every block of the
range completed successfully, and the sequence of checkpoint writes is
monotone. -/
theorem fail_fast_checkpoint_safety (process : Nat → Except Error Unit)
    (f t b : Nat) (e : Error) (hfb : f ≤ b) (hbt : b ≤ t)
    (hfail : process b = Except.error e)
    (hok : ∀ x, f ≤ x → x < b → process x = Except.ok ()) :
    (index_range process f t).2.2 = some e ∧
    List.Pairwise (· ≤ ·) (index_range process f t).2.1 ∧
    ∀ w ∈ (index_range process f t).2.1,
      w < b ∧ ∀ x, f ≤ x → x ≤ w → process x = Except.ok () := by
  have hsplit := range'_split f b t hfb hbt
  have hok' : ∀ x ∈ List.range' f (b - f), process x = Except.ok () := by
    intro x hx
    rw [List.mem_range'_1] at hx
    exact hok x hx.1 (by omega)
  have hdrain := drainLoop_first_error process b e (List.range' f (b - f))
    (List.range' (b + 1) (t - b)) hok' hfail
  unfold index_range
  rw [hsplit, hdrain]
  refine ⟨rfl, ?_, ?_⟩
  · exact List.Pairwise.filter _
      ((List.pairwise_lt_range' f (b - f)).imp fun h12 => Nat.le_of_lt h12)
  · intro w hw
    rw [List.mem_filter, List.mem_range'_1] at hw
    refine ⟨by omega, ?_⟩
    intro x hx1 hx2
    exact hok x hx1 (by omega)

theorem fail_fast_checkpoint_safety_witness :
    (index_range (fun x => if x = 103 then Except.error (Error.DB "boom") else Except.ok ())
      101 105).2.2 = some (Error.DB "boom") :=
  (fail_fast_checkpoint_safety
    (fun x => if x = 103 then Except.error (Error.DB "boom") else Except.ok ())
    101 105 103 (Error.DB "boom") (by norm_num) (by norm_num) (by norm_num)
    (fun x h1 h2 => by interval_cases x <;> rfl)).1

theorem except_ok_bind {α β : Type} (a : α) (f : α → Except Error β) :
    (Except.ok a >>= f) = f a := rfl

theorem upsert_upsert (db : Db) (k : XdmKey) (ins : XdmRecord) (upd : XdmRecord → XdmRecord)
    (h1 : upd ins = ins) (h2 : ∀ r, upd (upd r) = upd r) :
    upsert (upsert db k ins upd) k ins upd = upsert db k ins upd := by
  induction db with
  | nil => simp [upsert, h1]
  | cons hd tl ih =>
    obtain ⟨k0, r⟩ := hd
    by_cases hk : k0 = k
    · simp [upsert, hk, h2]
    · simp [upsert, hk, ih]

/-- C7: applying the same event twice through store_events produces the
same table as applying it once, for every event variant, every block
reference and payload, and every prior table state. -/
theorem store_events_idempotent (src_chain : ChainId) (block : HashAndNumber)
    (block_time : Int) (e : Event) (db : Db) :
    store_events src_chain block block_time [e, e] db =
      store_events src_chain block block_time [e] db := by
  cases e <;>
    simp only [store_events, List.foldl_cons, List.foldl_nil,
      store_outgoing_transfer_initiated, store_outgoing_transfer_acknowledgement,
      store_incoming_transfer_execution] <;>
    exact upsert_upsert _ _ _ _ rfl fun r => rfl

/-- C3 amended: each upsert leaves every column outside its write set
unchanged; the Initiated upsert writes sender, receiver, amount and the
initiated block fields, the Acknowledged upsert writes the acknowledged
block fields and the success flag, and the Executed upsert writes the
amount, the executed block fields, and also sets the success flag to
true (contrary to the original claim it does write the success flag). -/
theorem field_group_frame (block : HashAndNumber) (block_time : Int) (r : XdmRecord)
    (src dst : ChainId) (c n : U256Compat) (a aI : Balance) (status : Bool)
    (senderA receiverA : String) :
    store_incoming_transfer_execution
        [(⟨src.display, dst.display, c.toNat, n.toNat⟩, r)] block dst block_time
        ⟨src, (c, n), a⟩ =
      [(⟨src.display, dst.display, c.toNat, n.toNat⟩,
        { r with
            amount := some a
            transfer_executed_on_dst_block_number := some (Int.ofNat block.number)
            transfer_executed_on_dst_block_hash := some block.hash
            transfer_successful := some true
            transfer_executed_on_dst_at := some block_time })] ∧
    store_outgoing_transfer_acknowledgement
        [(⟨src.display, dst.display, c.toNat, n.toNat⟩, r)] block src dst block_time
        (c, n) status =
      [(⟨src.display, dst.display, c.toNat, n.toNat⟩,
        { r with
            transfer_acknowledged_on_src_block_hash := some block.hash
            transfer_acknowledged_on_src_block_number := some (Int.ofNat block.number)
            transfer_successful := some status
            transfer_acknowledged_on_src_at := some block_time })] ∧
    store_outgoing_transfer_initiated
        [(⟨src.display, dst.display, c.toNat, n.toNat⟩, r)] block block_time
        ⟨(c, n), ⟨aI, ⟨src, senderA⟩, ⟨dst, receiverA⟩⟩⟩ =
      [(⟨src.display, dst.display, c.toNat, n.toNat⟩,
        { r with
            sender := some senderA
            receiver := some receiverA
            amount := some aI
            transfer_initiated_block_number := some (Int.ofNat block.number)
            transfer_initiated_block_hash := some block.hash
            transfer_initiated_on_src_at := some block_time })] := by
  refine ⟨?_, ?_, ?_⟩ <;>
    simp [store_incoming_transfer_execution, store_outgoing_transfer_acknowledgement,
      store_outgoing_transfer_initiated, upsert]

theorem executed_upsert_writes_success_flag :
    ((store_incoming_transfer_execution
        [(⟨"Consensus", "Domain(0)", 0, 1⟩,
          { emptyRecord with transfer_successful := some false })]
        ⟨"0xcc", 900⟩ (ChainId.Domain 0) 0
        ⟨ChainId.Consensus, cexMessageId, 5⟩).map fun p => p.2.transfer_successful) =
      [some true] ∧ (some true : Option Bool) ≠ some false := by
  constructor
  · rfl
  · decide

theorem store_events_merge_order_dependent :
    store_events (ChainId.Domain 0) cexBlockE 3 [cexExecEv]
        (store_events ChainId.Consensus cexBlockA 2 [cexAckEv]
          (store_events ChainId.Consensus cexBlockI 1 [cexInitEv] [])) ≠
      store_events ChainId.Consensus cexBlockI 1 [cexInitEv]
        (store_events ChainId.Consensus cexBlockA 2 [cexAckEv]
          (store_events (ChainId.Domain 0) cexBlockE 3 [cexExecEv] [])) := by
  decide

/-- C2 amended: when the acknowledgement is successful and the initiated
and executed events carry the same amount, applying the Initiated,
Acknowledged and Executed events of one transfer through store_events in
any of the six orders yields the same single merged row, with all three
field groups populated identically; in general the success flag and the
amount column are each written by two event types, so order independence
holds exactly when those overlapping writes agree. -/
theorem store_events_merge_commutes (src dst : ChainId) (c n : U256Compat)
    (senderA receiverA : String) (aI aE : Balance)
    (blkI blkA blkE : HashAndNumber) (tI tA tE : Int)
    (hamount : aI = aE) :
    ∀ (iEv aEv eEv : Event) (K : XdmKey) (R : XdmRecord),
      iEv = Event.OutgoingTransferInitiated
          ⟨(c, n), ⟨aI, ⟨src, senderA⟩, ⟨dst, receiverA⟩⟩⟩ →
      aEv = Event.OutgoingTransferSuccessful ⟨dst, (c, n)⟩ →
      eEv = Event.IncomingTransferSuccessful ⟨src, (c, n), aE⟩ →
      K = ⟨src.display, dst.display, c.toNat, n.toNat⟩ →
      R = ⟨some senderA, some receiverA, some aI,
           some (Int.ofNat blkI.number), some blkI.hash, some tI,
           some (Int.ofNat blkE.number), some blkE.hash, some tE,
           some (Int.ofNat blkA.number), some blkA.hash, some tA,
           some true⟩ →
      store_events dst blkE tE [eEv]
          (store_events src blkA tA [aEv] (store_events src blkI tI [iEv] [])) = [(K, R)] ∧
      store_events src blkA tA [aEv]
          (store_events dst blkE tE [eEv] (store_events src blkI tI [iEv] [])) = [(K, R)] ∧
      store_events dst blkE tE [eEv]
          (store_events src blkI tI [iEv] (store_events src blkA tA [aEv] [])) = [(K, R)] ∧
      store_events src blkI tI [iEv]
          (store_events dst blkE tE [eEv] (store_events src blkA tA [aEv] [])) = [(K, R)] ∧
      store_events src blkA tA [aEv]
          (store_events src blkI tI [iEv] (store_events dst blkE tE [eEv] [])) = [(K, R)] ∧
      store_events src blkI tI [iEv]
          (store_events src blkA tA [aEv] (store_events dst blkE tE [eEv] [])) = [(K, R)] := by
  intro iEv aEv eEv K R hi ha he hK hR
  subst hamount
  subst hi
  subst ha
  subst he
  subst hK
  subst hR
  refine ⟨?_, ?_, ?_, ?_, ?_, ?_⟩ <;>
    simp [store_events, store_outgoing_transfer_initiated,
      store_outgoing_transfer_acknowledgement, store_incoming_transfer_execution, upsert]

theorem store_events_merge_commutes_witness :
    store_events (ChainId.Domain 0) cexBlockE 3
        [Event.IncomingTransferSuccessful ⟨ChainId.Consensus, cexMessageId, 5⟩]
        (store_events ChainId.Consensus cexBlockA 2
          [Event.OutgoingTransferSuccessful ⟨ChainId.Domain 0, cexMessageId⟩]
          (store_events ChainId.Consensus cexBlockI 1 [cexInitEv] [])) =
      [(⟨"Consensus", "Domain(0)", 0, 1⟩,
        ⟨some "alice", some "bob", some 5,
         some 500, some "0xaa", some 1,
         some 900, some "0xcc", some 3,
         some 600, some "0xbb", some 2,
         some true⟩)] :=
  (store_events_merge_commutes ChainId.Consensus (ChainId.Domain 0)
    ⟨0, 0, 0, 0⟩ ⟨1, 0, 0, 0⟩ "alice" "bob" 5 5 cexBlockI cexBlockA cexBlockE 1 2 3 rfl
    _ _ _ _ _ rfl rfl rfl rfl rfl).1

/-- C9: a block whose event extraction yields the empty list completes
without any write to the transfers table: the table state passes through
index_events_for_block unchanged. -/
theorem empty_events_no_store (chain : ChainId) (block_number : Nat) (db : Db)
    (block_provider : Nat → Except Error BlockExt) (block_ext : BlockExt)
    (hp : block_provider block_number = Except.ok block_ext)
    (hx : extract_xdm_events_for_block chain block_ext = Except.ok []) :
    index_events_for_block chain block_number db block_provider = Except.ok db := by
  unfold index_events_for_block
  rw [hp, except_ok_bind, hx, except_ok_bind]
  rfl

theorem empty_events_no_store_witness :
    index_events_for_block ChainId.Consensus 1 []
      (fun _ => Except.ok
        ⟨1, "0xee", 0, Except.ok [], Except.ok [],
          fun _ _ => Except.error (Error.Subspace "unused")⟩) = Except.ok [] :=
  empty_events_no_store ChainId.Consensus 1 []
    (fun _ => Except.ok
      ⟨1, "0xee", 0, Except.ok [], Except.ok [],
        fun _ _ => Except.error (Error.Subspace "unused")⟩)
    ⟨1, "0xee", 0, Except.ok [], Except.ok [],
      fun _ _ => Except.error (Error.Subspace "unused")⟩
    rfl rfl

theorem undecodable_skips (e : RawEvent) (h : e.undecodable = true) :
    okFlatten (asEventOutgoingTransferFailed e) = none ∧
    okFlatten (asEventOutgoingTransferSuccessful e) = none ∧
    okFlatten (asEventIncomingTransferSuccessful e) = none ∧
    okFlatten (asEventOutgoingTransferInitiated e) = none := by
  cases e with
  | outgoingTransferInitiated d =>
    cases d with
    | none => exact ⟨rfl, rfl, rfl, rfl⟩
    | some x => simp [RawEvent.undecodable] at h
  | outgoingTransferFailed d =>
    cases d with
    | none => exact ⟨rfl, rfl, rfl, rfl⟩
    | some x => simp [RawEvent.undecodable] at h
  | outgoingTransferSuccessful d =>
    cases d with
    | none => exact ⟨rfl, rfl, rfl, rfl⟩
    | some x => simp [RawEvent.undecodable] at h
  | incomingTransferSuccessful d =>
    cases d with
    | none => exact ⟨rfl, rfl, rfl, rfl⟩
    | some x => simp [RawEvent.undecodable] at h
  | unrelated => exact ⟨rfl, rfl, rfl, rfl⟩

/-- C6 amended: extraction drops, without surfacing any error, both
unrelated records and records recognized as one of the four known event
types whose payload fails to decode: a consensus block whose event log
holds only such records extracts successfully to the empty event list, so
a decode failure on a recognized record type is silently skipped by the
ok-flatten collapse rather than surfaced as a pipeline error. -/
theorem extract_tolerant_skip (block_ext : BlockExt) (evs : List RawEvent)
    (hev : block_ext.events = Except.ok evs)
    (hall : ∀ e ∈ evs, e.undecodable = true) :
    extract_xdm_events_for_block ChainId.Consensus block_ext = Except.ok [] := by
  have h1 : as_events_failed evs = Except.ok [] := by
    unfold as_events_failed
    rw [Except.ok.injEq, List.filterMap_eq_nil_iff]
    intro e he
    rw [(undecodable_skips e (hall e he)).1]
    rfl
  have h2 : as_events_successful evs = Except.ok [] := by
    unfold as_events_successful
    rw [Except.ok.injEq, List.filterMap_eq_nil_iff]
    intro e he
    rw [(undecodable_skips e (hall e he)).2.1]
    rfl
  have h3 : as_events_incoming evs = Except.ok [] := by
    unfold as_events_incoming
    rw [Except.ok.injEq, List.filterMap_eq_nil_iff]
    intro e he
    rw [(undecodable_skips e (hall e he)).2.2.1]
    rfl
  have h4 : evs.filterMap (fun e => okFlatten (asEventOutgoingTransferInitiated e)) = [] := by
    rw [List.filterMap_eq_nil_iff]
    intro e he
    exact (undecodable_skips e (hall e he)).2.2.2
  unfold extract_xdm_events_for_block
  rw [hev]
  show (do
    let e1 ← as_events_failed evs
    let e2 ← as_events_successful evs
    let e3 ← as_events_incoming evs
    let outgoing_init_events ←
      (evs.filterMap fun e => okFlatten (asEventOutgoingTransferInitiated e)).mapM fun event =>
        (block_ext.outgoing_transfers event.chain_id event.message_id).map fun transfer =>
          Event.OutgoingTransferInitiated ⟨event.message_id, transfer⟩
    pure (e1 ++ e2 ++ e3 ++ outgoing_init_events)) = Except.ok []
  rw [h1, except_ok_bind, h2, except_ok_bind, h3, except_ok_bind, h4]
  rfl

theorem extract_tolerant_skip_witness :
    extract_xdm_events_for_block ChainId.Consensus
      ⟨7, "0xff", 0,
        Except.ok [RawEvent.unrelated, RawEvent.incomingTransferSuccessful none],
        Except.ok [], fun _ _ => Except.error (Error.Subspace "unused")⟩ = Except.ok [] :=
  extract_tolerant_skip
    ⟨7, "0xff", 0,
      Except.ok [RawEvent.unrelated, RawEvent.incomingTransferSuccessful none],
      Except.ok [], fun _ _ => Except.error (Error.Subspace "unused")⟩
    [RawEvent.unrelated, RawEvent.incomingTransferSuccessful none]
    rfl (by decide)

theorem extract_swallows_recognized_decode_failure :
    extract_xdm_events_for_block ChainId.Consensus
      ⟨7, "0xdd", 0, Except.ok [RawEvent.outgoingTransferFailed none], Except.ok [],
        fun _ _ => Except.error (Error.Subspace "unused")⟩ = Except.ok [] := by
  rfl

end ChainPulse
